import Mathlib

/-!
Shallow embedding of the query-interpretation pipeline of `Server/nlp_module.py`,
`Server/database.py` and `Server/app.py`, together with theorems settling the
spec claims about it.

Modelling conventions:
* The external morphological analyzer (spacy + pymorphy3) is abstracted: a
  document is a list of tokens, each carrying its surface text and
  part-of-speech tag, and lemma lookup (`morph.parse(...)[0].normal_form`) is an
  abstract function `normalize : String → String`.
* The PostgreSQL store is modelled explicitly: a `Store` of rows, a `Conn`
  holding a committed snapshot and the current transaction's pending state.
  Each primitive statement executed through a cursor may raise; raising is
  driven by a fault schedule (a `List Bool`, `true` = the statement succeeds,
  missing entries default to success), which stands for any database-raised
  exception (connection loss, constraint violation, ...).
* Python truthiness of the values that occur here is modelled exactly:
  a list is truthy iff non-empty, a string iff non-empty, an integer iff
  non-zero, `None` is falsy.
-/

/-- A spacy token as used by `process_query`: surface text and POS tag. -/
structure Token where
  text : String
  pos : String
deriving Repr, DecidableEq

/-- Python `str.lower` / the lowercase step of `str.capitalize`, for the ASCII
and Cyrillic ranges that occur in this program. -/
def downChar (c : Char) : Char :=
  if 'A' ≤ c ∧ c ≤ 'Z' then Char.ofNat (c.toNat + 32)
  else if 0x410 ≤ c.toNat ∧ c.toNat ≤ 0x42F then Char.ofNat (c.toNat + 32)
  else if c.toNat = 0x401 then Char.ofNat 0x451
  else c

/-- The uppercase step of Python `str.capitalize`, for the ASCII and Cyrillic
ranges that occur in this program. -/
def upChar (c : Char) : Char :=
  if 'a' ≤ c ∧ c ≤ 'z' then Char.ofNat (c.toNat - 32)
  else if 0x430 ≤ c.toNat ∧ c.toNat ≤ 0x44F then Char.ofNat (c.toNat - 32)
  else if c.toNat = 0x451 then Char.ofNat 0x401
  else c

/-- Python `str.lower`. -/
def strLower (s : String) : String :=
  String.mk (s.data.map downChar)

/-- Python `str.capitalize`: first character uppercased, the rest lowercased. -/
def capitalize (s : String) : String :=
  match s.data with
  | [] => ""
  | c :: cs => String.mk (upChar c :: cs.map downChar)

/-- `token.pos_ in ["NOUN", "VERB"]` (nlp_module.py line 11). -/
def isContentPos (p : String) : Bool :=
  p == "NOUN" || p == "VERB"

/-- nlp_module.py line 11: keep noun/verb tokens, lower-case the surface form
and take the analyzer's normal form. `normalize` abstracts
`fun s => morph.parse(s)[0].normal_form`. -/
def extractKeywords (normalize : String → String) (doc : List Token) : List String :=
  (doc.filter (fun t => isContentPos t.pos)).map (fun t => normalize (strLower t.text))

/-- The fixed subject vocabulary, nlp_module.py line 15. -/
def subjects : List String :=
  ["математика", "информатика", "физика", "программирование",
   "алгебра", "анализ", "дискретная"]

/-- nlp_module.py lines 14–19: scan keywords in order, first member of the
subject vocabulary wins and is capitalized; no match yields `none`. -/
def findSubject : List String → Option String
  | [] => none
  | k :: ks => if k ∈ subjects then some (capitalize k) else findSubject ks

/-- The `subject_mapping` dict, nlp_module.py lines 22–30, in definition order. -/
def subjectMapping : List (String × List String) :=
  [("Математика", ["Линейная алгебра", "Математический анализ", "Алгебра"]),
   ("Информатика", ["Информатика", "Программирование", "Базы данных"]),
   ("Физика", ["Физика"]),
   ("Программирование", ["Программирование", "Информатика"]),
   ("Алгебра", ["Линейная алгебра", "Алгебра"]),
   ("Анализ", ["Математический анализ"]),
   ("Дискретная", ["Дискретная математика"])]

/-- Dict lookup `subject_mapping[subject]` (with the `subject in subject_mapping`
membership test as `Option`). -/
def lookupMapping (s : String) : Option (List String) :=
  (subjectMapping.find? (fun p => p.1 == s)).map Prod.snd

/-- The `recommendations` dict, nlp_module.py lines 33–44, in definition order. -/
def recommendations : List (String × String) :=
  [("экзамен", "Рекомендуется начать подготовку за 2 недели, изучить материалы курса и выполнить практические задания."),
   ("домашнее задание", "Проверьте задания в системе, обратитесь к преподавателю за разъяснениями."),
   ("расписание", "Ознакомьтесь с актуальным расписанием на портале университета или обратитесь в деканат."),
   ("консультация", "Запишитесь на консультацию через систему или свяжитесь с преподавателем напрямую."),
   ("материалы", "Скачайте учебные материалы из системы e-learning или запросите их у преподавателя."),
   ("практика", "Для закрепления материала выполните практические задания и проверьте решения на платформе."),
   ("мотивация", "Ставьте небольшие цели, делите задачи на части и вознаграждайте себя за успехи!"),
   ("проект", "Составьте план работы над проектом, обсудите этапы с руководителем и следуйте дедлайнам."),
   ("литература", "Используйте рекомендованную литературу из учебного плана или обратитесь в библиотеку."),
   ("группа", "Обсудите задание с одногруппниками или присоединитесь к учебной группе для совместной подготовки.")]

/-- The loop of nlp_module.py lines 79–81 over an explicit table suffix. -/
def findRecFrom (table : List (String × String)) (keywords : List String) : Option String :=
  match table with
  | [] => none
  | (k, r) :: rest => if k ∈ keywords then some r else findRecFrom rest keywords

/-- nlp_module.py lines 79–84: iterate the `recommendations` dict in definition
order, return the text of the first key that is a member of `keywords`. -/
def findRecommendation (keywords : List String) : Option String :=
  findRecFrom recommendations keywords

/-- A row of the `Literature` table, as selected at nlp_module.py line 52. -/
structure LitRecord where
  id : Nat
  title : String
  author : String
  subject : String
  faculty : String
  publication_year : Nat
  url : String
deriving Repr, DecidableEq

/-- One disjunct of the literature filter: `keywords ILIKE pat` or
`subject ILIKE pat`, with the pattern already `%`-wrapped. -/
inductive Cond where
  | kw (pat : String)
  | subj (pat : String)
deriving Repr, DecidableEq

/-- The fixed faculty constant, nlp_module.py line 53. -/
def faculty : String := "Физико-математический, информационный и технологический"

/-- The disjunction built at nlp_module.py lines 57–68: one `keywords ILIKE`
condition per keyword, then, when the subject is present and a key of
`subject_mapping`, one `subject ILIKE` condition per related subject. -/
def litConditions (keywords : List String) (subject : Option String) : List Cond :=
  keywords.map (fun k => Cond.kw ("%" ++ k ++ "%"))
    ++ (match subject with
        | none => []
        | some s =>
          match lookupMapping s with
          | none => []
          | some rels => rels.map (fun r => Cond.subj ("%" ++ r ++ "%")))

/-- The literature SELECT issued at nlp_module.py lines 52–71: a conjunctive
faculty filter and the disjunction of `conds`. -/
structure LitQuery where
  faculty : String
  conds : List Cond
deriving Repr, DecidableEq

/-- The result of `process_query`: the returned triple plus a flag recording
whether the Persistence Gateway was invoked for literature at all. -/
structure PQResult where
  response : Option String
  subject : Option String
  literature : List LitRecord
  dbQueried : Bool
deriving Repr, DecidableEq

/-- Python truthiness of the optional subject string. -/
def truthySubject : Option String → Bool
  | none => false
  | some s => s ≠ ""

/-- nlp_module.py lines 8–84, `process_query`. `litDb` abstracts the database
round trip `get_db_connection` / `cur.execute` / `fetchall` for the literature
SELECT; a raised exception is `Except.error`. The `try/except` at lines 49–76
catches any such exception, prints it and leaves `literature = []`. -/
def processQuery (normalize : String → String)
    (litDb : LitQuery → Except String (List LitRecord)) (doc : List Token) : PQResult :=
  let keywords := extractKeywords normalize doc
  let subject := findSubject keywords
  let lit :=
    if keywords ≠ [] ∨ truthySubject subject then
      match litDb ⟨faculty, litConditions keywords subject⟩ with
      | .ok l => (l, true)
      | .error _ => ([], true)
    else ([], false)
  { response := findRecommendation keywords
    subject := subject
    literature := lit.1
    dbQueried := lit.2 }

/-- A `Users` row as inserted at database.py lines 40–43. -/
structure UserRec where
  id : Nat
  name : String
  email : String
  role : String
deriving Repr, DecidableEq

/-- A `Queries` row as inserted at database.py line 66. -/
structure QueryRec where
  id : Nat
  user_id : Nat
  query_text : String
  status : String
deriving Repr, DecidableEq

/-- A `Responses` row as inserted at database.py line 81. -/
structure RespRec where
  query_id : Nat
  response_text : String
deriving Repr, DecidableEq

/-- A snapshot of the database tables touched by database.py, plus the two
sequences involved (`Queries.id` default sequence and `public.users_id_seq`). -/
structure Store where
  users : List UserRec
  queries : List QueryRec
  responses : List RespRec
  queriesSeq : Nat
  usersSeq : Nat
deriving Repr, DecidableEq

/-- A connection: the durable committed snapshot and the current transaction's
pending state. `commit` publishes pending; `rollback` restores committed;
closing without commit discards pending. -/
structure Conn where
  committed : Store
  pending : Store
deriving Repr, DecidableEq

/-- An empty store. -/
def emptyStore : Store := ⟨[], [], [], 0, 0⟩

/-- A fresh connection over an empty store. -/
def emptyConn : Conn := ⟨emptyStore, emptyStore⟩

/-- Whether statement number `k` of a function's fault schedule succeeds;
unlisted statements succeed. -/
def stepOk (sched : List Bool) (k : Nat) : Bool :=
  sched.getD k true

/-- `SELECT 1 FROM Users WHERE id = %s` has a row, database.py line 38. -/
def userExists (s : Store) (uid : Nat) : Bool :=
  s.users.any (fun u => u.id == uid)

/-- `SELECT MAX(id) FROM Users`, with `or 0` for the NULL of an empty table
(database.py lines 44–47). -/
def maxUserId (s : Store) : Nat :=
  s.users.foldl (fun m u => max m u.id) 0

/-- Number of `Users` rows with the given id. -/
def countUsers (s : Store) (uid : Nat) : Nat :=
  (s.users.filter (fun u => u.id == uid)).length

/-- database.py lines 35–60, `ensure_user_exists`. Statements in schedule
order: 0 the existence SELECT, 1 the INSERT, 2 the MAX SELECT, 3 the setval,
4 the COMMIT. On any failure the `except` clause rolls back and re-raises;
the error value is the connection after that rollback. -/
def ensureUserExists (sched : List Bool) (conn : Conn) (uid : Nat) : Except Conn Conn :=
  if !stepOk sched 0 then .error { conn with pending := conn.committed }
  else if userExists conn.pending uid then .ok conn
  else if !stepOk sched 1 then .error { conn with pending := conn.committed }
  else
    let p1 := { conn.pending with
                users := conn.pending.users
                  ++ [({ id := uid, name := "User " ++ toString uid,
                         email := "user" ++ toString uid ++ "@example.com",
                         role := "student" } : UserRec)] }
    if !stepOk sched 2 then .error { conn with pending := conn.committed }
    else if !stepOk sched 3 then .error { conn with pending := conn.committed }
    else
      let p2 := { p1 with usersSeq := maxUserId p1 }
      if !stepOk sched 4 then .error { conn with pending := conn.committed }
      else .ok { committed := p2, pending := p2 }

/-- database.py lines 62–75, `insert_query`. Statements in schedule order:
0 the INSERT ... RETURNING, 1 the fetch of the returned id, 2 the COMMIT.
The `except` clause only logs and re-raises (no rollback), so the error value
keeps the dirty pending state; the committed snapshot is untouched. -/
def insertQuery (sched : List Bool) (conn : Conn) (uid : Nat) (text : String) :
    Except Conn (Conn × Nat) :=
  if !stepOk sched 0 then .error conn
  else
    let qid := conn.pending.queriesSeq
    let p1 := { conn.pending with
                queries := conn.pending.queries ++ [⟨qid, uid, text, "processed"⟩],
                queriesSeq := qid + 1 }
    if !stepOk sched 1 then .error { conn with pending := p1 }
    else if !stepOk sched 2 then .error { conn with pending := p1 }
    else .ok ({ committed := p1, pending := p1 }, qid)

/-- database.py lines 77–88, `insert_response`. Statements in schedule order:
0 the INSERT, 1 the COMMIT. As in `insert_query`, failures log and re-raise
without touching the committed snapshot. -/
def insertResponse (sched : List Bool) (conn : Conn) (qid : Nat) (text : String) :
    Except Conn Conn :=
  if !stepOk sched 0 then .error conn
  else
    let p1 := { conn.pending with responses := conn.pending.responses ++ [⟨qid, text⟩] }
    if !stepOk sched 1 then .error { conn with pending := p1 }
    else .ok { committed := p1, pending := p1 }

/-- A row of the recommendations SELECT at app.py lines 32–35. -/
structure RecRow where
  recommendation_text : String
  timestamp : Nat
deriving Repr, DecidableEq

/-- The HTTP outcomes of `process_input` (app.py lines 12–47): the 400
validation reply, the generic 500 reply of the `except` clause, and the JSON
success payload. -/
inductive HttpResult where
  | badRequest
  | serverError
  | success (query_response : Option String) (recommendations : List RecRow)
      (literature : List LitRecord)
deriving Repr, DecidableEq

/-- The database collaborators of one `process_input` request: the literature
lookup used inside `process_query`, the outcome of `get_db_connection`, the
fault schedules of the three insert helpers, and the recommendations SELECT. -/
structure DbEnv where
  litDb : LitQuery → Except String (List LitRecord)
  connResult : Except String Conn
  eSched : List Bool
  qSched : List Bool
  rSched : List Bool
  recsFetch : Conn → Except String (List RecRow)

/-- app.py lines 25–37: everything inside the `try` after `process_query` —
connect, ensure the user, insert the query, insert the response iff a truthy
recommendation was produced, fetch stored recommendations. Any raise anywhere
here escapes to the `except` clause. -/
def persistPhase (env : DbEnv) (uid : Nat) (text : String) (resp : Option String) :
    Except Unit (List RecRow) :=
  match env.connResult with
  | .error _ => .error ()
  | .ok conn =>
    match ensureUserExists env.eSched conn uid with
    | .error _ => .error ()
    | .ok c1 =>
      match insertQuery env.qSched c1 uid text with
      | .error _ => .error ()
      | .ok (c2, qid) =>
        let afterResp : Except Conn Conn :=
          match resp with
          | some r => if r ≠ "" then insertResponse env.rSched c2 qid r else .ok c2
          | none => .ok c2
        match afterResp with
        | .error _ => .error ()
        | .ok c3 =>
          match env.recsFetch c3 with
          | .error _ => .error ()
          | .ok recs => .ok recs

/-- app.py lines 12–47, `process_input`. `nlpDoc` abstracts the spacy pipeline
`nlp : text → doc` feeding `process_query`; missing or falsy `user_id` /
`input_text` yield the 400 reply; a raise inside the `try` yields the 500
reply; otherwise the JSON triple is returned. -/
def processInput (normalize : String → String) (nlpDoc : String → List Token)
    (env : DbEnv) (user_id? : Option Nat) (input_text? : Option String) : HttpResult :=
  match user_id?, input_text? with
  | some uid, some text =>
    if uid = 0 ∨ text = "" then .badRequest
    else
      let pq := processQuery normalize env.litDb (nlpDoc text)
      match persistPhase env uid text pq.response with
      | .error _ => .serverError
      | .ok recs => .success pq.response recs pq.literature
  | _, _ => .badRequest

/-- A one-token document: the single noun "экзамен". -/
def examDoc : List Token := [⟨"экзамен", "NOUN"⟩]

/-- Concrete collaborators where the literature database is down for every
query while all other storage operations succeed. -/
def litDownEnv : DbEnv :=
  { litDb := fun _ => .error "connection refused"
    connResult := .ok emptyConn
    eSched := []
    qSched := []
    rSched := []
    recsFetch := fun _ => .ok [] }

/-- Concrete collaborators where the literature database is down and the
`INSERT` statement of `insert_query` also raises. -/
def qFailEnv : DbEnv :=
  { litDownEnv with qSched := [false] }

/-- Entries whose key is not in `keywords` are skipped by the matcher loop. -/
theorem findRecFrom_append_skip (pre rest : List (String × String)) (kws : List String)
    (h : ∀ p ∈ pre, p.1 ∉ kws) :
    findRecFrom (pre ++ rest) kws = findRecFrom rest kws := by
  induction pre with
  | nil => rfl
  | cons hd tl ih =>
    have hhd : hd.1 ∉ kws := h hd (List.mem_cons_self hd tl)
    obtain ⟨k, r⟩ := hd
    simp only [List.cons_append, findRecFrom, if_neg hhd]
    exact ih (fun p hp => h p (List.mem_cons_of_mem _ hp))

/-- If no key of the table occurs among the keywords, the loop returns `none`. -/
theorem findRecFrom_eq_none (table : List (String × String)) (kws : List String)
    (h : ∀ p ∈ table, p.1 ∉ kws) :
    findRecFrom table kws = none := by
  induction table with
  | nil => rfl
  | cons hd tl ih =>
    obtain ⟨k, r⟩ := hd
    simp only [findRecFrom, if_neg (h (k, r) (List.mem_cons_self _ tl))]
    exact ih (fun p hp => h p (List.mem_cons_of_mem _ hp))

/-- A returned advisory text is the text of some table entry whose key occurs
among the keywords. -/
theorem findRecFrom_some_key (table : List (String × String)) (kws : List String)
    (r : String) (h : findRecFrom table kws = some r) :
    ∃ k, k ∈ kws ∧ (k, r) ∈ table := by
  induction table with
  | nil => exact absurd h (by simp [findRecFrom])
  | cons hd tl ih =>
    obtain ⟨k0, r0⟩ := hd
    by_cases hk : k0 ∈ kws
    · simp only [findRecFrom, if_pos hk, Option.some.injEq] at h
      exact ⟨k0, hk, by simp [h]⟩
    · simp only [findRecFrom, if_neg hk] at h
      obtain ⟨k, hkk, hmem⟩ := ih h
      exact ⟨k, hkk, List.mem_cons_of_mem _ hmem⟩

/-- C2: the Recommendation Matcher iterates the `recommendations` table in
definition order and returns the text of the first key that is a member of the
given keyword sequence (so with several trigger keywords present, the one
earliest in the table — not earliest among the keywords — wins); if no table
key occurs among the keywords it returns `none`. -/
theorem recommendation_matcher_table_order :
    (∀ (kws : List String) (pre post : List (String × String)) (k r : String),
        recommendations = pre ++ (k, r) :: post → k ∈ kws →
        (∀ p ∈ pre, p.1 ∉ kws) → findRecommendation kws = some r)
    ∧ (∀ kws : List String, (∀ p ∈ recommendations, p.1 ∉ kws) →
        findRecommendation kws = none) := by
  constructor
  · intro kws pre post k r htable hk hpre
    unfold findRecommendation
    rw [htable, findRecFrom_append_skip _ _ _ hpre]
    simp [findRecFrom, hk]
  · intro kws h
    exact findRecFrom_eq_none _ _ h

/-- Witness for C2: the keyword sequence lists "консультация" before
"расписание", yet the advisory of "расписание" fires because that key comes
first in the table's definition order. -/
theorem recommendation_matcher_table_order_witness :
    findRecommendation ["консультация", "расписание"]
      = some "Ознакомьтесь с актуальным расписанием на портале университета или обратитесь в деканат." :=
  recommendation_matcher_table_order.1 ["консультация", "расписание"]
    (recommendations.take 2) (recommendations.drop 3) "расписание"
    "Ознакомьтесь с актуальным расписанием на портале университета или обратитесь в деканат."
    (by decide) (by decide) (by decide)

/-- C3: any keyword sequence containing "экзамен" gets exactly the exam
advisory text, whatever other keywords are present — "экзамен" is the first
key of the table, so it always wins. -/
theorem exam_recommendation_fires (kws : List String) (h : "экзамен" ∈ kws) :
    findRecommendation kws
      = some "Рекомендуется начать подготовку за 2 недели, изучить материалы курса и выполнить практические задания." := by
  simp [findRecommendation, recommendations, findRecFrom, h]

/-- Witness for C3 at a concrete keyword sequence with competing triggers. -/
theorem exam_recommendation_fires_witness :
    findRecommendation ["группа", "экзамен", "расписание"]
      = some "Рекомендуется начать подготовку за 2 недели, изучить материалы курса и выполнить практические задания." :=
  exam_recommendation_fires ["группа", "экзамен", "расписание"] (by decide)

/-- C7: the Subject Classifier scans keywords in extraction order and returns
the capitalization of the first keyword belonging to the fixed vocabulary,
stopping there; `none` when no keyword is in the vocabulary. -/
theorem subject_classifier_first_match (kws : List String) :
    findSubject kws = (kws.find? (fun k => decide (k ∈ subjects))).map capitalize := by
  induction kws with
  | nil => rfl
  | cons k ks ih =>
    by_cases h : k ∈ subjects <;> simp [findSubject, List.find?_cons, h, ih]

/-- C8: a document with no noun or verb token yields an empty keyword
sequence, on which both the Subject Classifier and the Recommendation Matcher
return `none`. -/
theorem no_content_tokens_all_null (normalize : String → String) (doc : List Token)
    (h : ∀ t ∈ doc, t.pos ≠ "NOUN" ∧ t.pos ≠ "VERB") :
    extractKeywords normalize doc = [] ∧
    findSubject (extractKeywords normalize doc) = none ∧
    findRecommendation (extractKeywords normalize doc) = none := by
  have hk : extractKeywords normalize doc = [] := by
    unfold extractKeywords
    have hf : doc.filter (fun t => isContentPos t.pos) = [] := by
      rw [List.filter_eq_nil_iff]
      intro t ht
      obtain ⟨h1, h2⟩ := h t ht
      simp [isContentPos, h1, h2]
    rw [hf]
    rfl
  refine ⟨hk, ?_, ?_⟩ <;> rw [hk] <;> decide

/-- Witness for C8: a single-conjunction document. -/
theorem no_content_tokens_all_null_witness :
    extractKeywords id [⟨"и", "CCONJ"⟩] = [] ∧
    findSubject (extractKeywords id [⟨"и", "CCONJ"⟩]) = none ∧
    findRecommendation (extractKeywords id [⟨"и", "CCONJ"⟩]) = none :=
  no_content_tokens_all_null id [⟨"и", "CCONJ"⟩] (by decide)

/-- C6: on an empty keyword sequence with no resolved subject, `process_query`
returns an empty literature list and never invokes the Persistence Gateway
(the guard at nlp_module.py line 48 short-circuits the whole lookup). -/
theorem empty_input_no_lookup (normalize : String → String)
    (litDb : LitQuery → Except String (List LitRecord)) (doc : List Token)
    (hk : extractKeywords normalize doc = [])
    (_hs : findSubject (extractKeywords normalize doc) = none) :
    (processQuery normalize litDb doc).literature = [] ∧
    (processQuery normalize litDb doc).dbQueried = false := by
  unfold processQuery
  rw [hk]
  simp [findSubject, truthySubject]

/-- Witness for C6 on the empty document. -/
theorem empty_input_no_lookup_witness :
    (processQuery id (fun _ => .ok []) []).literature = [] ∧
    (processQuery id (fun _ => .ok []) []).dbQueried = false :=
  empty_input_no_lookup id (fun _ => .ok []) [] rfl rfl

/-- A resolved subject is the capitalization of some keyword that belongs to
the vocabulary. -/
theorem findSubject_some_spec (kws : List String) (s : String)
    (h : findSubject kws = some s) :
    ∃ k, k ∈ kws ∧ k ∈ subjects ∧ s = capitalize k := by
  induction kws with
  | nil => exact absurd h (by simp [findSubject])
  | cons k ks ih =>
    by_cases hk : k ∈ subjects
    · simp only [findSubject, if_pos hk, Option.some.injEq] at h
      exact ⟨k, List.mem_cons_self _ _, hk, h.symm⟩
    · simp only [findSubject, if_neg hk] at h
      obtain ⟨k', h1, h2, h3⟩ := ih h
      exact ⟨k', List.mem_cons_of_mem _ h1, h2, h3⟩

/-- Every capitalized vocabulary word is a key of `subject_mapping` with a
non-empty list of related subjects. -/
theorem capitalized_subject_in_mapping (k : String) (hk : k ∈ subjects) :
    (lookupMapping (capitalize k)).isSome ∧ (lookupMapping (capitalize k)).getD [] ≠ [] := by
  fin_cases hk <;> decide

/-- C9: whenever `process_query` resolves a subject, it is the capitalization
of some extracted keyword (hence the keyword sequence is non-empty), it is a
key of `subject_mapping`, and the literature filter then contains the
subject-related conditions after the keyword conditions. -/
theorem subject_invariant (kws : List String) (s : String)
    (h : findSubject kws = some s) :
    (∃ k, k ∈ kws ∧ k ∈ subjects ∧ s = capitalize k) ∧
    kws ≠ [] ∧
    (lookupMapping s).isSome ∧
    litConditions kws (some s)
      = kws.map (fun k => Cond.kw ("%" ++ k ++ "%"))
        ++ ((lookupMapping s).getD []).map (fun r => Cond.subj ("%" ++ r ++ "%")) := by
  obtain ⟨k, hmem, hvoc, hs⟩ := findSubject_some_spec kws s h
  have hmap := capitalized_subject_in_mapping k hvoc
  rw [← hs] at hmap
  refine ⟨⟨k, hmem, hvoc, hs⟩, ?_, hmap.1, ?_⟩
  · intro hnil
    rw [hnil] at h
    exact absurd h (by simp [findSubject])
  · obtain ⟨rels, hrels⟩ := Option.isSome_iff_exists.mp hmap.1
    simp [litConditions, hrels]

/-- Witness for C9 at the keyword sequence `["физика"]`. -/
theorem subject_invariant_witness :
    (∃ k, k ∈ ["физика"] ∧ k ∈ subjects ∧ "Физика" = capitalize k) ∧
    ["физика"] ≠ ([] : List String) ∧
    (lookupMapping "Физика").isSome ∧
    litConditions ["физика"] (some "Физика")
      = ["физика"].map (fun k => Cond.kw ("%" ++ k ++ "%"))
        ++ ((lookupMapping "Физика").getD []).map (fun r => Cond.subj ("%" ++ r ++ "%")) :=
  subject_invariant ["физика"] "Физика" (by decide)

/-- Only the "домашнее задание" entry of the table carries its advisory text. -/
theorem hw_text_unique_key (k : String)
    (h : (k, "Проверьте задания в системе, обратитесь к преподавателю за разъяснениями.") ∈ recommendations) :
    k = "домашнее задание" := by
  simp only [recommendations, List.mem_cons, List.not_mem_nil, or_false, Prod.mk.injEq] at h
  rcases h with ⟨rfl, h⟩ | ⟨rfl, h⟩ | ⟨rfl, h⟩ | ⟨rfl, h⟩ | ⟨rfl, h⟩ | ⟨rfl, h⟩ | ⟨rfl, h⟩
      | ⟨rfl, h⟩ | ⟨rfl, h⟩ | ⟨rfl, h⟩ <;> first
    | rfl
    | exact absurd h (by decide)

/-- C10: keyword sequences whose elements contain no space character (as
single-token lemmas do) can never trigger the multi-word table entry
"домашнее задание": its advisory text is unreachable, because the membership
test at nlp_module.py line 80 compares whole strings. -/
theorem multiword_entry_unreachable (kws : List String)
    (h : ∀ k, k ∈ kws → ¬ (' ' ∈ k.data)) :
    findRecommendation kws
      ≠ some "Проверьте задания в системе, обратитесь к преподавателю за разъяснениями." := by
  intro hc
  obtain ⟨k, hkk, hmem⟩ := findRecFrom_some_key recommendations kws _ hc
  have hkey := hw_text_unique_key k hmem
  subst hkey
  exact h _ hkk (by decide)

/-- Witness for C10 at the single-lemma keyword sequence `["задание"]`. -/
theorem multiword_entry_unreachable_witness :
    findRecommendation ["задание"]
      ≠ some "Проверьте задания в системе, обратитесь к преподавателю за разъяснениями." :=
  multiword_entry_unreachable ["задание"] (by decide)

/-- The empty fault schedule makes every statement succeed. -/
theorem stepOk_nil (k : Nat) : stepOk [] k = true := by
  cases k <;> rfl

/-- If the existence probe fails, no row carries the id. -/
theorem count_of_not_userExists (s : Store) (uid : Nat)
    (h : userExists s uid = false) : countUsers s uid = 0 := by
  unfold userExists at h
  rw [List.any_eq_false] at h
  unfold countUsers
  rw [List.length_eq_zero, List.filter_eq_nil_iff]
  exact h

/-- If the existence probe succeeds, at least one row carries the id. -/
theorem count_of_userExists (s : Store) (uid : Nat)
    (h : userExists s uid = true) : 1 ≤ countUsers s uid := by
  unfold userExists at h
  rw [List.any_eq_true] at h
  obtain ⟨u, hu, hid⟩ := h
  have : u ∈ s.users.filter (fun u => u.id == uid) := List.mem_filter.mpr ⟨hu, hid⟩
  have := List.length_pos.mpr (List.ne_nil_of_mem this)
  unfold countUsers
  omega

/-- A fault-free `ensure_user_exists` call always succeeds, leaves a clean
connection on which the user now exists, creates the default row exactly when
the id was absent, and is a no-op when it was present. -/
theorem ensureUser_nofault (conn : Conn) (uid : Nat)
    (hclean : conn.pending = conn.committed) :
    ∃ c, ensureUserExists [] conn uid = .ok c ∧ c.pending = c.committed ∧
      userExists c.committed uid = true ∧
      (userExists conn.committed uid = true → c = conn) ∧
      countUsers c.committed uid
        = (if userExists conn.committed uid then countUsers conn.committed uid
           else countUsers conn.committed uid + 1) := by
  by_cases hex : userExists conn.pending uid
  · have hexc : userExists conn.committed uid = true := by rw [← hclean]; exact hex
    refine ⟨conn, ?_, hclean, hexc, fun _ => rfl, ?_⟩
    · simp [ensureUserExists, stepOk_nil, hex]
    · rw [if_pos hexc]
  · have hexc : userExists conn.committed uid = false := by
      rw [← hclean]; exact eq_false_of_ne_true hex
    set us : List UserRec := conn.pending.users
      ++ [({ id := uid, name := "User " ++ toString uid,
             email := "user" ++ toString uid ++ "@example.com",
             role := "student" } : UserRec)] with hus
    set S : Store := { users := us, queries := conn.pending.queries,
                       responses := conn.pending.responses,
                       queriesSeq := conn.pending.queriesSeq,
                       usersSeq := maxUserId { conn.pending with users := us } } with hS
    refine ⟨⟨S, S⟩, ?_, rfl, ?_, ?_, ?_⟩
    · simp [ensureUserExists, stepOk_nil, hex, hS, hus]
    · simp [hS, userExists, hus, List.any_append]
    · intro hcontra
      rw [hexc] at hcontra
      cases hcontra
    · rw [if_neg (by rw [hexc]; exact Bool.false_ne_true)]
      simp [hS, countUsers, hus, List.filter_append, hclean]

/-- C4: `ensure_user_exists` is idempotent: two successive fault-free calls
with the same id both succeed (the second is a no-op) and leave exactly one
user row with that id in the committed store. -/
theorem ensure_user_idempotent (conn : Conn) (uid : Nat)
    (hclean : conn.pending = conn.committed)
    (hinv : countUsers conn.committed uid ≤ 1) :
    ∃ c1 c2 : Conn,
      ensureUserExists [] conn uid = .ok c1 ∧
      ensureUserExists [] c1 uid = .ok c2 ∧
      c2 = c1 ∧ countUsers c1.committed uid = 1 ∧ countUsers c2.committed uid = 1 := by
  obtain ⟨c1, h1, hcl1, hex1, _hnoop1, hcount1⟩ := ensureUser_nofault conn uid hclean
  obtain ⟨c2, h2, _hcl2, _hex2, hnoop2, _hcount2⟩ := ensureUser_nofault c1 uid hcl1
  have hc21 : c2 = c1 := hnoop2 hex1
  have hcnt1 : countUsers c1.committed uid = 1 := by
    by_cases hex0 : userExists conn.committed uid
    · rw [hcount1, if_pos hex0]
      have := count_of_userExists conn.committed uid hex0
      omega
    · rw [hcount1, if_neg hex0]
      have := count_of_not_userExists conn.committed uid (eq_false_of_ne_true hex0)
      omega
  exact ⟨c1, c2, h1, h2, hc21, hcnt1, hc21 ▸ hcnt1⟩

/-- Witness for C4 on a fresh connection over the empty store. -/
theorem ensure_user_idempotent_witness :
    ∃ c1 c2 : Conn,
      ensureUserExists [] emptyConn 7 = .ok c1 ∧
      ensureUserExists [] c1 7 = .ok c2 ∧
      c2 = c1 ∧ countUsers c1.committed 7 = 1 ∧ countUsers c2.committed 7 = 1 :=
  ensure_user_idempotent emptyConn 7 rfl (by decide)

/-- C5: under every fault schedule, each insert is atomic on the committed
store. `insert_query` either commits exactly one new `Queries` row carrying
the fresh sequence identifier it returns, or raises leaving the committed
store unchanged; likewise `insert_response` for its `Responses` row and
`ensure_user_exists` for its `Users` row. -/
theorem insert_atomicity (sched : List Bool) (conn : Conn) (uid qid0 : Nat)
    (text rtext : String) (hclean : conn.pending = conn.committed) :
    (∀ c, insertQuery sched conn uid text = .error c → c.committed = conn.committed)
    ∧ (∀ c qid, insertQuery sched conn uid text = .ok (c, qid) →
        qid = conn.committed.queriesSeq ∧
        c.committed.queries = conn.committed.queries
          ++ [({ id := qid, user_id := uid, query_text := text,
                 status := "processed" } : QueryRec)])
    ∧ (∀ c, insertResponse sched conn qid0 rtext = .error c → c.committed = conn.committed)
    ∧ (∀ c, insertResponse sched conn qid0 rtext = .ok c →
        c.committed.responses = conn.committed.responses
          ++ [({ query_id := qid0, response_text := rtext } : RespRec)])
    ∧ (∀ c, ensureUserExists sched conn uid = .error c → c.committed = conn.committed)
    ∧ (∀ c, ensureUserExists sched conn uid = .ok c →
        c.committed.users = conn.committed.users ∨
        c.committed.users = conn.committed.users
          ++ [({ id := uid, name := "User " ++ toString uid,
                 email := "user" ++ toString uid ++ "@example.com",
                 role := "student" } : UserRec)]) := by
  refine ⟨?_, ?_, ?_, ?_, ?_, ?_⟩
  · intro c h
    unfold insertQuery at h
    split at h
    · cases h; rfl
    · split at h
      · cases h; rfl
      · split at h
        · cases h; rfl
        · cases h
  · intro c qid h
    unfold insertQuery at h
    split at h
    · cases h
    · split at h
      · cases h
      · split at h
        · cases h
        · cases h
          exact ⟨by rw [hclean], by rw [hclean]⟩
  · intro c h
    unfold insertResponse at h
    split at h
    · cases h; rfl
    · split at h
      · cases h; rfl
      · cases h
  · intro c h
    unfold insertResponse at h
    split at h
    · cases h
    · split at h
      · cases h
      · cases h
        rw [hclean]
  · intro c h
    unfold ensureUserExists at h
    split at h
    · cases h; rfl
    · split at h
      · cases h
      · split at h
        · cases h; rfl
        · split at h
          · cases h; rfl
          · split at h
            · cases h; rfl
            · split at h
              · cases h; rfl
              · cases h
  · intro c h
    unfold ensureUserExists at h
    split at h
    · cases h
    · split at h
      · cases h
        exact Or.inl rfl
      · split at h
        · cases h
        · split at h
          · cases h
          · split at h
            · cases h
            · split at h
              · cases h
              · cases h
                exact Or.inr (by rw [hclean])

/-- Witness for C5: a fault-free `insert_query` on the empty store commits the
single new row and returns the fresh identifier 0. -/
theorem insert_atomicity_witness :
    (0 : Nat) = emptyConn.committed.queriesSeq ∧
    (⟨⟨[], [⟨0, 1, "hi", "processed"⟩], [], 1, 0⟩,
      ⟨[], [⟨0, 1, "hi", "processed"⟩], [], 1, 0⟩⟩ : Conn).committed.queries
      = emptyConn.committed.queries
        ++ [({ id := 0, user_id := 1, query_text := "hi",
               status := "processed" } : QueryRec)] :=
  (insert_atomicity [] emptyConn 1 0 "hi" "r" rfl).2.1 _ 0 rfl

/-- The advisory and subject of `process_query` never depend on the literature
database: they are pure functions of the extracted keywords. -/
theorem processQuery_response_subject (normalize : String → String)
    (litDb : LitQuery → Except String (List LitRecord)) (doc : List Token) :
    (processQuery normalize litDb doc).response
      = findRecommendation (extractKeywords normalize doc) ∧
    (processQuery normalize litDb doc).subject
      = findSubject (extractKeywords normalize doc) := ⟨rfl, rfl⟩

/-- When every literature lookup raises, `process_query` still returns, with an
empty literature list: the `except` at nlp_module.py lines 75–76 swallows the
failure. -/
theorem processQuery_litDb_down (normalize : String → String) (e : String)
    (doc : List Token) :
    (processQuery normalize (fun _ => .error e) doc).literature = [] := by
  unfold processQuery
  dsimp only
  split <;> rfl

/-- C1 counterexample: here every literature lookup fails with a storage error
("connection refused"), yet `process_input` returns a 200 success payload —
the failure of the literature lookup inside `process_query` is swallowed, not
surfaced to the caller. -/
theorem literature_failure_swallowed_counterexample :
    litDownEnv.litDb ⟨faculty, litConditions ["экзамен"] none⟩
      = .error "connection refused" ∧
    processInput id (fun _ => examDoc) litDownEnv (some 1) (some "Когда экзамен?")
      = .success
          (some "Рекомендуется начать подготовку за 2 недели, изучить материалы курса и выполнить практические задания.")
          [] [] := by
  constructor
  · rfl
  · rfl

/-- C1 amended: a storage failure in the persistence phase — connection
acquisition, user creation, query insert, response insert or the
recommendations fetch — aborts the whole request with the generic 500 error;
but a failure of the literature lookup inside `process_query` does not
propagate: even with the literature database failing on every query, the
request proceeds and, when the persistence phase succeeds, returns a success
payload whose literature list is empty. -/
theorem amended_failure_semantics (normalize : String → String)
    (nlpDoc : String → List Token) (env : DbEnv) (uid : Nat) (text e : String)
    (huid : uid ≠ 0) (htext : text ≠ "") :
    (persistPhase env uid text
        (processQuery normalize env.litDb (nlpDoc text)).response = .error () →
      processInput normalize nlpDoc env (some uid) (some text) = .serverError)
    ∧ processInput normalize nlpDoc { env with litDb := fun _ => .error e }
        (some uid) (some text)
      = (match persistPhase env uid text
             (processQuery normalize env.litDb (nlpDoc text)).response with
         | .error _ => HttpResult.serverError
         | .ok recs => HttpResult.success
             (processQuery normalize env.litDb (nlpDoc text)).response recs []) := by
  have hguard : ¬(uid = 0 ∨ text = "") := by
    rintro (h | h)
    exacts [huid h, htext h]
  constructor
  · intro hp
    unfold processInput
    dsimp only
    rw [if_neg hguard, hp]
  · unfold processInput
    dsimp only
    rw [if_neg hguard]
    have hsame : persistPhase { env with litDb := fun _ => .error e } uid text
        (processQuery normalize (fun _ => .error e) (nlpDoc text)).response
        = persistPhase env uid text
            (processQuery normalize env.litDb (nlpDoc text)).response := rfl
    rw [hsame]
    cases hps : persistPhase env uid text
        (processQuery normalize env.litDb (nlpDoc text)).response with
    | error u => rfl
    | ok recs =>
      rw [processQuery_litDb_down normalize e (nlpDoc text)]
      rfl

/-- Witness for the amended C1: the same request with the `INSERT` of
`insert_query` raising is aborted with the generic 500 error. -/
theorem amended_failure_semantics_witness :
    processInput id (fun _ => examDoc) qFailEnv (some 1) (some "Когда экзамен?")
      = .serverError :=
  (amended_failure_semantics id (fun _ => examDoc) qFailEnv 1 "Когда экзамен?" "x"
      (by decide) (by decide)).1 rfl
